import Mathlib

/-!
Verification development for the stock-check scoring engine in `src/app.py`.

The numeric domain of the source (Python floats over financial statement
values and prices) is embedded as `ℚ`; nullable values (`None` / `NaN`) are
embedded as `Option ℚ`.  Each definition below mirrors a specific block of
`src/app.py`; the mirrored line numbers are cited in the comments.
-/

namespace StockCheck

/-- Raw value of a numeric field in an Alpha Vantage quarterly report.
In the provider JSON every numeric field is a string; `q.get(key)` yields
`None` when the key is absent, and the literal string `"None"` marks a
missing value.  An empty string is falsy in Python.  `num n` stands for a
numeric string parsing to the integer `n`. -/
inductive AVField where
  | absent
  | novalue
  | empty
  | num (n : Int)
deriving DecidableEq, Repr, Inhabited

/-- Coercion applied by the extractor, app.py lines 161-169 and every
`int(x) if x and x != 'None' else 0` site: absent keys, the `"None"`
placeholder and the empty string all coerce to the integer 0. -/
def avCoerce : AVField → Int
  | .num n => n
  | _ => 0

/-- Modelled from the spec's words for claim C4 (spec section 4.1), for
comparison with `avCoerce`: missing and placeholder values coerce to null,
a present-but-empty field coerces to zero. -/
def avCoerceSpec : AVField → Option Int
  | .num n => some n
  | .empty => some 0
  | _ => none

/-- One Alpha Vantage quarterly report (the fields the scoring engine
reads; `fiscalDateEnding` only feeds display labels and is omitted). -/
structure AVReport where
  totalRevenue : AVField
  netIncome : AVField
  grossProfit : AVField
deriving DecidableEq, Repr, Inhabited

/-- A single YoY point of the Yahoo-path growth calculator,
app.py lines 447-469: computed when the four-quarters-prior value is in
range, non-NaN and nonzero and the current value is non-NaN; the current
value is NOT required to be nonzero on this path. -/
def yoyPoint (cur prior : Option ℚ) : Option ℚ :=
  match cur, prior with
  | some c, some p => if p ≠ 0 then some ((c - p) / |p| * 100) else none
  | _, _ => none

/-- Function `check_growth_acceleration`, app.py lines 440-474.  Input is the raw
statement row (most-recent-first, entries possibly NaN).  For fewer than 5
values it returns `(false, [])`; otherwise it builds exactly four YoY
slots (offsets 0..3 against offsets 4..7) and reports acceleration when
the first two are both non-null and the first exceeds the second.
`values.getD i none` is `none` exactly when `i` is out of range or the
stored entry is NaN, which matches the source's `len(values) > i+4` and
`pd.isna` guards.  The acceleration flag (`accelFrom`, app.py lines
471-474) is latest YoY strictly above the previous YoY, false when
either is null. -/
def accelFrom : Option ℚ → Option ℚ → Bool
  | some a, some b => decide (b < a)
  | _, _ => false

def check_growth_acceleration (values : List (Option ℚ)) : Bool × List (Option ℚ) :=
  if values.length < 5 then (false, [])
  else
    let gr := (List.range 4).map (fun i => yoyPoint (values.getD i none) (values.getD (i + 4) none))
    (accelFrom (gr.getD 0 none) (gr.getD 1 none), gr)

/-- YoY point of the Alpha Vantage path, app.py lines 183-187 / 210-214:
here BOTH the current and the four-quarters-prior value must be nonzero
(the zero sentinel produced by `avCoerce` doubles as the missing marker). -/
def avYoY (cur prior : Int) : Option ℚ :=
  if prior ≠ 0 ∧ cur ≠ 0 then some (((cur : ℚ) - (prior : ℚ)) / |(prior : ℚ)| * 100) else none

/-- Revenue series the Alpha Vantage path extracts, app.py lines 157-163:
the first eight reports' `totalRevenue`, coerced by `avCoerce`. -/
def avRevenues (data : List AVReport) : List Int :=
  (data.take 8).map (fun q => avCoerce q.totalRevenue)

/-- Gross-profit series of the Alpha Vantage path, app.py lines 157-169. -/
def avGrossProfits (data : List AVReport) : List Int :=
  (data.take 8).map (fun q => avCoerce q.grossProfit)

/-- Sales-growth series of the Alpha Vantage path, app.py lines 176-230:
eight YoY points when at least 12 quarters are available, four when at
least 8, and a vector of four nulls otherwise. -/
def avSalesGrowthList (data : List AVReport) : List (Option ℚ) :=
  if 12 ≤ data.length then
    (List.range 8).map (fun i =>
      avYoY ((avRevenues data).getD i 0) (avCoerce ((data.getD (i + 4) default).totalRevenue)))
  else if 8 ≤ data.length then
    (List.range 4).map (fun i =>
      avYoY ((avRevenues data).getD i 0) (avCoerce ((data.getD (i + 4) default).totalRevenue)))
  else [none, none, none, none]

/-- Shared sales-growth scoring rule, app.py lines 191-201, 218-228 and
505-522: a null latest YoY scores 0; latest above 30 scores 1.0 outright;
otherwise one half point for acceleration over a non-null previous YoY
plus one half point for latest above 15. -/
def salesScoreFrom (latest prev : Option ℚ) : ℚ :=
  match latest with
  | none => 0
  | some l =>
    if 30 < l then 1
    else
      (match prev with | some p => if p < l then (1 : ℚ) / 2 else 0 | none => 0)
      + (if 15 < l then (1 : ℚ) / 2 else 0)

/-- Sales-growth sub-score of the Alpha Vantage path, app.py lines
176-230 (scoring tail of each branch). -/
def avSalesScore (data : List AVReport) : ℚ :=
  salesScoreFrom ((avSalesGrowthList data).getD 0 none) ((avSalesGrowthList data).getD 1 none)

/-- Sales-growth sub-score of the Yahoo path, app.py lines 505-525: the
statement row is sliced to eight quarters, fed to
`check_growth_acceleration`, and scored with the shared rule (the
source's `is_accelerating` flag equals the non-null previous-YoY
comparison used by `salesScoreFrom`). -/
def yahooSalesScore (revenue : List (Option ℚ)) : ℚ :=
  match (check_growth_acceleration (revenue.take 8)).2.getD 0 none with
  | none => 0
  | some l =>
    if 30 < l then 1
    else (if (check_growth_acceleration (revenue.take 8)).1 then (1 : ℚ) / 2 else 0)
      + (if 15 < l then (1 : ℚ) / 2 else 0)

example : avCoerce AVField.novalue = 0 := by decide
example : yoyPoint (some 0) (some 100) = some (-100) := by norm_num [yoyPoint]

/-- Gross-margin series of the Alpha Vantage path, app.py lines 232-239:
per quarter `gross_profit / revenue * 100`, null when the (coerced)
revenue OR the (coerced) gross profit is zero. -/
def avGrossMargins (data : List AVReport) : List (Option ℚ) :=
  (List.range (min 8 (avGrossProfits data).length)).map (fun i =>
    if (avRevenues data).getD i 0 ≠ 0 ∧ (avGrossProfits data).getD i 0 ≠ 0 then
      some ((((avGrossProfits data).getD i 0 : ℚ)) / (((avRevenues data).getD i 0 : ℚ)) * 100)
    else none)

/-- Shared gross-margin scoring rule, app.py lines 243-251 and 539-547:
with at least two margin entries and a non-null latest margin, one half
point when the latest exceeds the non-null previous margin and one half
point when the latest exceeds 40. -/
def marginScoreFrom (margins : List (Option ℚ)) : ℚ :=
  if 2 ≤ margins.length then
    match margins.getD 0 none with
    | none => 0
    | some l =>
      (match margins.getD 1 none with | some p => if p < l then (1 : ℚ) / 2 else 0 | none => 0)
      + (if 40 < l then (1 : ℚ) / 2 else 0)
  else 0

/-- Gross-margin sub-score of the Alpha Vantage path, app.py lines 232-251. -/
def avMarginScore (data : List AVReport) : ℚ :=
  marginScoreFrom (avGrossMargins data)

/-- Rule-of-40 sub-score of the Alpha Vantage path, app.py lines 304-322:
with at least 5 quarters, revenue growth compares `revenues[0]` against
the coerced `totalRevenue` of report 4 (a YoY comparison); the margin
term requires both latest revenue and latest gross profit nonzero; the
score is 1 when growth plus margin reaches 40, else 0. -/
def avRuleOf40 (data : List AVReport) : ℚ :=
  if 5 ≤ data.length then
    if avCoerce ((data.getD 4 default).totalRevenue) ≠ 0 then
      if (avRevenues data).getD 0 0 ≠ 0 ∧ (avGrossProfits data).getD 0 0 ≠ 0 then
        if 40 ≤ (((avRevenues data).getD 0 0 : ℚ) - (avCoerce ((data.getD 4 default).totalRevenue) : ℚ))
                  / |(avCoerce ((data.getD 4 default).totalRevenue) : ℚ)| * 100
                + ((avGrossProfits data).getD 0 0 : ℚ) / ((avRevenues data).getD 0 0 : ℚ) * 100
        then 1 else 0
      else 0
    else 0
  else 0

/-- Quarterly income/balance rows of the Yahoo (yfinance) statements that
the scorer reads; a row is `none` when the line item is absent from the
statement index.  Entries are most-recent-first. -/
structure YahooIncome where
  totalRevenue : Option (List ℚ)
  grossProfit : Option (List ℚ)
  ebitda : Option (List ℚ)
deriving Repr, Inhabited

/-- Revenue-growth term of the Yahoo Rule-of-40, app.py lines 580-584:
the revenue row is sliced to TWO quarters and the growth compares the
latest quarter to the immediately prior quarter (not four quarters
prior); null when the row is absent, shorter than 2, or the prior
quarter's revenue is zero. -/
def yahooRevGrowth40 (inc : YahooIncome) : Option ℚ :=
  match inc.totalRevenue with
  | some revs =>
    let r := revs.take 2
    if 2 ≤ r.length ∧ r.getD 1 0 ≠ 0 then
      some ((r.getD 0 0 - r.getD 1 0) / |r.getD 1 0| * 100)
    else none
  | none => none

/-- Margin term of the Yahoo Rule-of-40, app.py lines 586-597: gross
profit over revenue when the Gross Profit row exists, else EBITDA over
revenue; null when revenue is zero.  An out-of-range `.values[0]` access
in the source raises and the surrounding `except` leaves the score at 0,
which coincides with the `none` result here. -/
def yahooProfitMargin40 (inc : YahooIncome) : Option ℚ :=
  match inc.grossProfit, inc.totalRevenue with
  | some gps, some revs =>
    if 0 < gps.length ∧ 0 < revs.length ∧ revs.getD 0 0 ≠ 0 then
      some (gps.getD 0 0 / revs.getD 0 0 * 100)
    else none
  | _, _ =>
    match inc.ebitda, inc.totalRevenue with
    | some es, some revs =>
      if 0 < es.length ∧ 0 < revs.length ∧ revs.getD 0 0 ≠ 0 then
        some (es.getD 0 0 / revs.getD 0 0 * 100)
      else none
    | _, _ => none

/-- Rule-of-40 sub-score of the Yahoo path, app.py lines 575-605: 1 when
both terms are defined and their sum reaches 40, else 0. -/
def yahooRuleOf40 (inc : YahooIncome) : ℚ :=
  match yahooRevGrowth40 inc, yahooProfitMargin40 inc with
  | some g, some m => if 40 ≤ g + m then 1 else 0
  | _, _ => 0

/-- Gross-margin series of the Yahoo path, app.py lines 532-537: defined
only when the two rows have equal length; per quarter null exactly when
that quarter's revenue is zero (a zero gross profit yields margin 0, not
null, on this path). -/
def yahooGrossMargins (grossProfit revenue : List ℚ) : List (Option ℚ) :=
  if revenue.length = grossProfit.length then
    (List.range revenue.length).map (fun i =>
      if revenue.getD i 0 ≠ 0 then some (grossProfit.getD i 0 / revenue.getD i 0 * 100) else none)
  else []

/-- Gross-margin sub-score of the Yahoo path, app.py lines 530-551: the
two rows are sliced to four quarters, turned into margins, and scored
with the shared rule. -/
def yahooMarginScore (inc : YahooIncome) : ℚ :=
  let ms := match inc.grossProfit, inc.totalRevenue with
    | some gps, some revs => yahooGrossMargins (gps.take 4) (revs.take 4)
    | _, _ => []
  marginScoreFrom ms

/-- ROE sub-score of the Yahoo path, app.py lines 607-634.  `roeInfo` is
`info.get('returnOnEquity')`; when present it is converted with an
unconditional `* 100` and scored against 15.  Otherwise per-quarter
annualized ROE is derived from the first four quarters of Net Income and
Stockholders Equity (entries possibly NaN, hence `Option ℚ`), and the
score is 1 exactly when the first derived quarter is non-null and at
least 15. -/
def yahooROEQuarters (nis eqs : List (Option ℚ)) : List (Option ℚ) :=
  (List.range (min (nis.take 4).length (eqs.take 4).length)).map (fun i =>
    match (nis.take 4).getD i none, (eqs.take 4).getD i none with
    | some a, some b => if b ≠ 0 then some (a * 4 / b * 100) else none
    | _, _ => none)

def yahooROE (roeInfo : Option ℚ) (netIncome equity : Option (List (Option ℚ))) : ℚ :=
  match roeInfo with
  | some r => if 15 ≤ r * 100 then 1 else 0
  | none =>
    match netIncome, equity with
    | some nis, some eqs =>
      if yahooROEQuarters nis eqs = [] then 0
      else match (yahooROEQuarters nis eqs).getD 0 none with
        | some r => if 15 ≤ r then 1 else 0
        | none => 0
    | _, _ => 0

/-- ROE supplement of the Alpha Vantage flow, app.py lines 986-1005: the
trailing ratio from Yahoo info is multiplied by 100 ONLY when it is
below 1 (otherwise it is taken as an already-percent figure), and the
score is 1 exactly when the resulting percentage reaches 15.  With no
reported ratio the score stays at the 0 set by
`calculate_alpha_vantage_fundamentals`.  Returns (score, displayed
percentage). -/
def avROEScore (roeTTM : Option ℚ) : ℚ × Option ℚ :=
  match roeTTM with
  | none => (0, none)
  | some r =>
    let pct := if r < 1 then r * 100 else r
    (if 15 ≤ pct then 1 else 0, some pct)

/-- One daily price/volume bar; the data frame is a chronologically
ascending list of these. -/
structure Bar where
  openP : ℚ
  highP : ℚ
  lowP : ℚ
  closeP : ℚ
  volume : ℚ
deriving DecidableEq, Repr, Inhabited

/-- Column `df['Volume'].rolling(window=30).mean()` at row `i`, app.py line 364:
the mean of the 30 volumes ENDING AT AND INCLUDING row `i`; NaN (`none`)
for the first 29 rows. -/
def volSMA30 (df : List Bar) (i : Nat) : Option ℚ :=
  if 29 ≤ i ∧ i < df.length then
    some ((((List.range 30).map (fun k => (df.getD (i - 29 + k) default).volume)).sum) / 30)
  else none

/-- Column `df['Open_Close_Change_Pct']` at row `i`, app.py line 365. -/
def ocChangePct (df : List Bar) (i : Nat) : ℚ :=
  ((df.getD i default).closeP - (df.getD i default).openP) / (df.getD i default).openP * 100

/-- Column `df['High'].shift(1).rolling(window=5).max()` at row `i`, app.py line
366: the maximum high of the five rows strictly before `i`; NaN for the
first five rows. -/
def high5Prev (df : List Bar) (i : Nat) : Option ℚ :=
  if 5 ≤ i ∧ i < df.length then
    let hs := (List.range 5).map (fun k => (df.getD (i - 5 + k) default).highP)
    some (hs.foldl max (hs.headD 0))
  else none

/-- Column `df['Is_Key_Bar']` at row `i`, app.py lines 368-372; any comparison
against a NaN column value is false. -/
def isKeyBar (df : List Bar) (i : Nat) : Bool :=
  (match volSMA30 df i with
   | some s => decide (s < (df.getD i default).volume)
   | none => false)
  && decide ((3 : ℚ) / 2 < |ocChangePct df i|)
  && (match high5Prev df i with
      | some h => decide (h < (df.getD i default).highP)
      | none => false)

/-- A row of the annotated COPY that `detect_key_bars` builds (the source
does `df = df.copy()` before adding the four derived columns). -/
structure AnnBar where
  base : Bar
  volSMA30 : Option ℚ
  ocChangePct : ℚ
  high5Prev : Option ℚ
  isKey : Bool
deriving Repr

/-- The annotated frame, app.py lines 362-372. -/
def annotate (df : List Bar) : List AnnBar :=
  (List.range df.length).map (fun i =>
    { base := df.getD i default
      volSMA30 := volSMA30 df i
      ocChangePct := ocChangePct df i
      high5Prev := high5Prev df i
      isKey := isKeyBar df i })

/-- Function `detect_key_bars`, app.py lines 357-381, returning the annotated copy
and the index of the selected key bar.  For fewer than 30 bars both
components are `none`.  Otherwise the last 10 rows (`df.tail(10)`, i.e.
indices `len-10 .. len-1`) are filtered for key bars and the
chronologically latest (`iloc[-1]`) is selected. -/
def detect_key_bars (df : List Bar) : Option (List AnnBar) × Option Nat :=
  if df.length < 30 then (none, none)
  else
    (some (annotate df),
     ((List.range' (df.length - 10) 10).filter (fun i => isKeyBar df i)).getLast?)

/-- The six technical sub-scores, app.py technical tab. -/
structure TechScores where
  stage2 : ℚ
  marketPulse : ℚ
  atrPercentile : ℚ
  accumulationDistribution : ℚ
  insiderActivity : ℚ
  keyBar : ℚ
deriving Repr

/-- The five fundamental sub-scores. -/
structure FundScores where
  salesGrowth : ℚ
  grossMargin : ℚ
  earnings : ℚ
  ruleOf40 : ℚ
  roe : ℚ
deriving Repr

/-- The two remarks sub-scores. -/
structure RemarkScores where
  topRatedGroup : ℚ
  newDevelopment : ℚ
deriving Repr

/-- Value sets each sub-score is drawn from (spec section 3 SubScore and
the widgets/functions producing them in app.py). -/
def validTech (t : TechScores) : Prop :=
  (t.stage2 = 0 ∨ t.stage2 = 1 / 2 ∨ t.stage2 = 1)
  ∧ (t.marketPulse = 0 ∨ t.marketPulse = 1 / 2 ∨ t.marketPulse = 1)
  ∧ (t.atrPercentile = 0 ∨ t.atrPercentile = 1)
  ∧ (t.accumulationDistribution = 0 ∨ t.accumulationDistribution = 1)
  ∧ (t.insiderActivity = 0 ∨ t.insiderActivity = 1)
  ∧ (t.keyBar = 0 ∨ t.keyBar = 1 / 2 ∨ t.keyBar = 1)

def validFund (f : FundScores) : Prop :=
  (f.salesGrowth = 0 ∨ f.salesGrowth = 1 / 2 ∨ f.salesGrowth = 1)
  ∧ (f.grossMargin = 0 ∨ f.grossMargin = 1 / 2 ∨ f.grossMargin = 1)
  ∧ (f.earnings = 0 ∨ f.earnings = 1 / 2 ∨ f.earnings = 1)
  ∧ (f.ruleOf40 = 0 ∨ f.ruleOf40 = 1)
  ∧ (f.roe = 0 ∨ f.roe = 1)

def validRemarks (r : RemarkScores) : Prop :=
  (r.topRatedGroup = 0 ∨ r.topRatedGroup = 1)
  ∧ (r.newDevelopment = 0 ∨ r.newDevelopment = 1)

/-- Sum `sum(tech_scores.values())`, app.py line 912. -/
def techTotal (t : TechScores) : ℚ :=
  t.stage2 + t.marketPulse + t.atrPercentile + t.accumulationDistribution
    + t.insiderActivity + t.keyBar

/-- Sum `sum(fund_scores.values())`, app.py line 1080. -/
def fundTotal (f : FundScores) : ℚ :=
  f.salesGrowth + f.grossMargin + f.earnings + f.ruleOf40 + f.roe

/-- Sum `sum(remarks_scores.values())`, app.py line 1150. -/
def remarksTotal (r : RemarkScores) : ℚ :=
  r.topRatedGroup + r.newDevelopment

/-- Total `total_score`, app.py line 1158. -/
def totalScore (t : TechScores) (f : FundScores) (r : RemarkScores) : ℚ :=
  techTotal t + fundTotal f + remarksTotal r

/-- Percentage `(total_score / max_score) * 100` with `max_score = 13`,
app.py lines 1159 and 1183. -/
def percentageOf (total : ℚ) : ℚ :=
  total / 13 * 100

/-- The rating band, app.py lines 1187-1196. -/
def ratingOf (percentage : ℚ) : String :=
  if 75 ≤ percentage then "⭐⭐⭐⭐⭐ Excellent"
  else if 60 ≤ percentage then "⭐⭐⭐⭐ Good"
  else if 45 ≤ percentage then "⭐⭐⭐ Average"
  else if 30 ≤ percentage then "⭐⭐ Below Average"
  else "⭐ Poor"

/-- The JSON body of an Alpha Vantage INCOME_STATEMENT response as the
core inspects it, app.py lines 104-116: optional failure keys and the
optional `quarterlyReports` array. -/
structure AVResponse where
  errorMessage : Option String
  note : Option String
  information : Option String
  quarterlyReports : Option (List AVReport)
deriving Inhabited

/-- The branching of `fetch_alpha_vantage_data` over the parsed JSON,
app.py lines 106-118: returns (income data, error message). -/
def classifyAVResponse (r : AVResponse) : Option (List AVReport) × Option String :=
  match r.errorMessage with
  | some m => (none, some ("Alpha Vantage error: " ++ m))
  | none =>
    match r.note with
    | some m => (none, some ("Alpha Vantage rate limit: " ++ m))
    | none =>
      match r.information with
      | some m => (none, some ("Alpha Vantage info: " ++ m))
      | none =>
        match r.quarterlyReports with
        | some data => (some data, none)
        | none => (none, some "No quarterly data")

/-- Flag `use_av` of the main flow, app.py lines 686-697: the Alpha Vantage
path is used only when the fetch reported no error and the returned
report list is truthy (non-empty). -/
def selectProvider (resp : AVResponse) : Bool :=
  match classifyAVResponse resp with
  | (some data, none) => !data.isEmpty
  | _ => false

/-- The fundamentals error the scoring pipeline sees, app.py lines
699-700 and 1007-1013: on the Alpha Vantage path it is `None`; on the
fallback it is whatever the YAHOO fetch reports — the Alpha Vantage
failure message is only surfaced as a UI warning (line 696) and never
reaches the aggregation. -/
def pipelineFundError (resp : AVResponse) (yahooFetchError : Option String) : Option String :=
  if selectProvider resp then none else yahooFetchError

/-- The amended key-bar condition of claim C3 as a proposition, spelled
from the (corrected) spec words: the bar has at least 29 predecessors,
its volume strictly exceeds the 30-period trailing average volume ENDING
AT AND INCLUDING the bar itself, its open-to-close move exceeds 1.5% in
magnitude, and its high strictly exceeds the maximum high of the 5 bars
strictly before it. -/
def isKeyBarP (df : List Bar) (i : Nat) : Prop :=
  29 ≤ i ∧ i < df.length
  ∧ (((List.range 30).map (fun k => (df.getD (i - 29 + k) default).volume)).sum) / 30
      < (df.getD i default).volume
  ∧ (3 : ℚ) / 2 < |ocChangePct df i|
  ∧ (((List.range 5).map (fun k => (df.getD (i - 5 + k) default).highP)).foldl max
        (((List.range 5).map (fun k => (df.getD (i - 5 + k) default).highP)).headD 0))
      < (df.getD i default).highP

/-- Concrete 31-bar frame for claim C3: one early huge-volume bar,
29 quiet bars, then a candidate bar with volume 100, a +2% close and a
new high. -/
def c3df : List Bar :=
  ⟨100, 150, 90, 100, 10000⟩ ::
    (List.replicate 29 ⟨100, 150, 90, 100, 10⟩ ++ [⟨100, 200, 90, 102, 100⟩])

/-! ### Helper lemmas -/

theorem mem3_bounds {x : ℚ} (h : x = 0 ∨ x = 1 / 2 ∨ x = 1) : 0 ≤ x ∧ x ≤ 1 := by
  rcases h with h | h | h <;> rw [h] <;> norm_num

theorem mem2_bounds {x : ℚ} (h : x = 0 ∨ x = 1) : 0 ≤ x ∧ x ≤ 1 := by
  rcases h with h | h <;> rw [h] <;> norm_num

theorem ratingOf_excellent (p : ℚ) : ratingOf p = "⭐⭐⭐⭐⭐ Excellent" ↔ 75 ≤ p := by
  unfold ratingOf
  split_ifs with h1 h2 h3 h4
  · exact ⟨fun _ => h1, fun _ => rfl⟩
  all_goals exact ⟨fun hh => absurd hh (by decide), fun hh => absurd hh h1⟩

theorem ratingOf_good (p : ℚ) : ratingOf p = "⭐⭐⭐⭐ Good" ↔ 60 ≤ p ∧ p < 75 := by
  unfold ratingOf
  split_ifs with h1 h2 h3 h4
  · exact ⟨fun hh => absurd hh (by decide), fun hh => absurd hh.2 (not_lt.mpr h1)⟩
  · exact ⟨fun _ => ⟨h2, not_le.mp h1⟩, fun _ => rfl⟩
  all_goals exact ⟨fun hh => absurd hh (by decide), fun hh => absurd hh.1 h2⟩

theorem ratingOf_average (p : ℚ) : ratingOf p = "⭐⭐⭐ Average" ↔ 45 ≤ p ∧ p < 60 := by
  unfold ratingOf
  split_ifs with h1 h2 h3 h4
  · exact ⟨fun hh => absurd hh (by decide), fun hh => absurd hh.2 (by push_neg; linarith)⟩
  · exact ⟨fun hh => absurd hh (by decide), fun hh => absurd hh.2 (not_lt.mpr h2)⟩
  · exact ⟨fun _ => ⟨h3, not_le.mp h2⟩, fun _ => rfl⟩
  all_goals exact ⟨fun hh => absurd hh (by decide), fun hh => absurd hh.1 h3⟩

theorem ratingOf_below_average (p : ℚ) : ratingOf p = "⭐⭐ Below Average" ↔ 30 ≤ p ∧ p < 45 := by
  unfold ratingOf
  split_ifs with h1 h2 h3 h4
  · exact ⟨fun hh => absurd hh (by decide), fun hh => absurd hh.2 (by push_neg; linarith)⟩
  · exact ⟨fun hh => absurd hh (by decide), fun hh => absurd hh.2 (by push_neg; linarith)⟩
  · exact ⟨fun hh => absurd hh (by decide), fun hh => absurd hh.2 (not_lt.mpr h3)⟩
  · exact ⟨fun _ => ⟨h4, not_le.mp h3⟩, fun _ => rfl⟩
  · exact ⟨fun hh => absurd hh (by decide), fun hh => absurd hh.1 h4⟩

theorem ratingOf_poor (p : ℚ) : ratingOf p = "⭐ Poor" ↔ p < 30 := by
  unfold ratingOf
  split_ifs with h1 h2 h3 h4
  · exact ⟨fun hh => absurd hh (by decide), fun hh => absurd h1 (by push_neg; linarith)⟩
  · exact ⟨fun hh => absurd hh (by decide), fun hh => absurd h2 (by push_neg; linarith)⟩
  · exact ⟨fun hh => absurd hh (by decide), fun hh => absurd h3 (by push_neg; linarith)⟩
  · exact ⟨fun hh => absurd hh (by decide), fun hh => absurd h4 (not_le.mpr hh)⟩
  · exact ⟨fun _ => not_le.mp h4, fun _ => rfl⟩

theorem filter_range'_getLast?_eq_some (p : Nat → Bool) (s a : Nat) :
    ∀ n, (((List.range' s n).filter p).getLast? = some a
      ↔ s ≤ a ∧ a < s + n ∧ p a = true ∧ ∀ j, a < j → j < s + n → p j = false) := by
  intro n
  induction n with
  | zero =>
    simp only [List.range']
    constructor
    · intro hh
      simp at hh
    · rintro ⟨h1, h2, h3, h4⟩
      omega
  | succ n ih =>
    have hsplit : List.range' s (n + 1) = List.range' s n ++ [s + n] := by
      have := @List.range'_concat 1 s n
      simpa using this
    rw [hsplit, List.filter_append]
    by_cases hp : p (s + n) = true
    · rw [show List.filter p [s + n] = [s + n] by simp [hp], List.getLast?_append]
      simp only [List.getLast?_singleton]
      rw [show ((some (s + n)).or ((List.filter p (List.range' s n)).getLast?)) = some (s + n)
        from rfl]
      constructor
      · intro hh
        have ha : s + n = a := by injection hh
        subst ha
        exact ⟨by omega, by omega, hp, fun j hj1 hj2 => by omega⟩
      · rintro ⟨h1, h2, h3, h4⟩
        have ha : a = s + n := by
          by_contra hne
          have hc := h4 (s + n) (by omega) (by omega)
          rw [hp] at hc
          cases hc
        rw [ha]
    · have hp' : p (s + n) = false := by
        cases h : p (s + n)
        · rfl
        · exact absurd h hp
      rw [show List.filter p [s + n] = [] by simp [hp']]
      rw [List.append_nil, ih]
      constructor
      · rintro ⟨h1, h2, h3, h4⟩
        refine ⟨h1, by omega, h3, fun j hj1 hj2 => ?_⟩
        rcases (by omega : j < s + n ∨ j = s + n) with h | h
        · exact h4 j hj1 h
        · rw [h]
          exact hp'
      · rintro ⟨h1, h2, h3, h4⟩
        have ha : a ≠ s + n := fun hh => by
          rw [hh] at h3
          rw [h3] at hp'
          cases hp'
        exact ⟨h1, by omega, h3, fun j hj1 hj2 => h4 j hj1 (by omega)⟩

theorem isKeyBar_iff (df : List Bar) (i : Nat) :
    isKeyBar df i = true ↔ isKeyBarP df i := by
  unfold isKeyBar isKeyBarP volSMA30 high5Prev
  by_cases h1 : 29 ≤ i ∧ i < df.length
  · rw [if_pos h1, if_pos (show 5 ≤ i ∧ i < df.length from ⟨by omega, h1.2⟩)]
    dsimp only
    simp only [Bool.and_eq_true, decide_eq_true_eq]
    constructor
    · rintro ⟨⟨ha, hb⟩, hc⟩
      exact ⟨h1.1, h1.2, ha, hb, hc⟩
    · rintro ⟨_, _, ha, hb, hc⟩
      exact ⟨⟨ha, hb⟩, hc⟩
  · rw [if_neg h1]
    dsimp only
    constructor
    · intro hh
      simp at hh
    · rintro ⟨ha, hb, _⟩
      exact absurd ⟨ha, hb⟩ h1

theorem annotate_base (df : List Bar) : (annotate df).map AnnBar.base = df := by
  unfold annotate
  rw [List.map_map]
  apply List.ext_getElem
  · simp
  · intro i h1 h2
    simp [List.getD_eq_getElem?_getD, List.getElem?_eq_getElem h2]

theorem getD_take {α : Type*} (l : List α) (n i : Nat) (d : α) (h : i < n) :
    (l.take n).getD i d = l.getD i d := by
  rw [List.getD_eq_getElem?_getD, List.getD_eq_getElem?_getD, List.getElem?_take, if_pos h]

theorem map_range_getD {α : Type*} (f : Nat → α) (n i : Nat) (d : α) (h : i < n) :
    ((List.range n).map f).getD i d = f i := by
  rw [List.getD_eq_getElem?_getD]
  simp [List.getElem?_eq_getElem, h]

theorem cga_snd (values : List (Option ℚ)) :
    (check_growth_acceleration values).2 =
      if values.length < 5 then []
      else (List.range 4).map (fun i => yoyPoint (values.getD i none) (values.getD (i + 4) none)) := by
  unfold check_growth_acceleration
  split_ifs with h <;> rfl

/-! ### Claim theorems -/

/-- Claim C9 (confirmed): whenever the secondary-provider JSON carries an
`Error Message`, `Note` or `Information` key, or lacks `quarterlyReports`,
the selector falls back to the primary provider (`use_av = false`, no
income data), and the error the scoring pipeline sees is whatever the
primary fetch reports — the secondary failure is never propagated. -/
theorem c9_silent_fallback (resp : AVResponse) (yErr : Option String)
    (h : resp.errorMessage ≠ none ∨ resp.note ≠ none ∨ resp.information ≠ none ∨
      resp.quarterlyReports = none) :
    selectProvider resp = false ∧ (classifyAVResponse resp).1 = none ∧
      pipelineFundError resp yErr = yErr := by
  obtain ⟨em, nt, info, qr⟩ := resp
  unfold pipelineFundError selectProvider classifyAVResponse
  rcases em with _ | m
  · rcases nt with _ | m
    · rcases info with _ | m
      · rcases qr with _ | data
        · simp
        · simp at h
      · simp
    · simp
  · simp

/-- Witness for C9: the scenario `{"Note": "rate limit"}` falls back
silently. -/
theorem c9_silent_fallback_witness :
    selectProvider ⟨none, some "rate limit", none, none⟩ = false ∧
      (classifyAVResponse ⟨none, some "rate limit", none, none⟩).1 = none ∧
      pipelineFundError ⟨none, some "rate limit", none, none⟩ none = none :=
  c9_silent_fallback ⟨none, some "rate limit", none, none⟩ none
    (Or.inr (Or.inl (Option.some_ne_none _)))

/-- Claim C10 (confirmed): `detect_key_bars` adds its derived columns
only to a copy (`df = df.copy()` in the source); projecting the returned
annotated frame back to its base columns recovers the input frame
unchanged, so the caller's frame is never mutated. -/
theorem c10_detector_preserves_input (df : List Bar) :
    Option.map (List.map AnnBar.base) (detect_key_bars df).1
      = Option.map (fun _ => df) (detect_key_bars df).1 := by
  unfold detect_key_bars
  split
  · rfl
  · simp [annotate_base]

/-- Claim C8 (confirmed): the total is the sum of the three category
scores, the percentage is total/13×100 and lies in [0,100] for every
valid sub-score combination, and the rating bands partition the
percentage axis high to low at 75/60/45/30. -/
theorem c8_aggregator (t : TechScores) (f : FundScores) (r : RemarkScores)
    (ht : validTech t) (hf : validFund f) (hr : validRemarks r) :
    totalScore t f r = techTotal t + fundTotal f + remarksTotal r
    ∧ 0 ≤ percentageOf (totalScore t f r) ∧ percentageOf (totalScore t f r) ≤ 100
    ∧ (∀ p : ℚ,
        (ratingOf p = "⭐⭐⭐⭐⭐ Excellent" ↔ 75 ≤ p)
        ∧ (ratingOf p = "⭐⭐⭐⭐ Good" ↔ 60 ≤ p ∧ p < 75)
        ∧ (ratingOf p = "⭐⭐⭐ Average" ↔ 45 ≤ p ∧ p < 60)
        ∧ (ratingOf p = "⭐⭐ Below Average" ↔ 30 ≤ p ∧ p < 45)
        ∧ (ratingOf p = "⭐ Poor" ↔ p < 30)) := by
  obtain ⟨ht1, ht2, ht3, ht4, ht5, ht6⟩ := ht
  obtain ⟨hf1, hf2, hf3, hf4, hf5⟩ := hf
  obtain ⟨hr1, hr2⟩ := hr
  obtain ⟨a1, b1⟩ := mem3_bounds ht1
  obtain ⟨a2, b2⟩ := mem3_bounds ht2
  obtain ⟨a3, b3⟩ := mem2_bounds ht3
  obtain ⟨a4, b4⟩ := mem2_bounds ht4
  obtain ⟨a5, b5⟩ := mem2_bounds ht5
  obtain ⟨a6, b6⟩ := mem3_bounds ht6
  obtain ⟨c1, d1⟩ := mem3_bounds hf1
  obtain ⟨c2, d2⟩ := mem3_bounds hf2
  obtain ⟨c3, d3⟩ := mem3_bounds hf3
  obtain ⟨c4, d4⟩ := mem2_bounds hf4
  obtain ⟨c5, d5⟩ := mem2_bounds hf5
  obtain ⟨e1, g1⟩ := mem2_bounds hr1
  obtain ⟨e2, g2⟩ := mem2_bounds hr2
  refine ⟨rfl, ?_, ?_, fun p => ⟨ratingOf_excellent p, ratingOf_good p,
    ratingOf_average p, ratingOf_below_average p, ratingOf_poor p⟩⟩
  · unfold percentageOf totalScore techTotal fundTotal remarksTotal
    linarith
  · unfold percentageOf totalScore techTotal fundTotal remarksTotal
    linarith

/-- Witness for C8 at a concrete valid sub-score combination. -/
theorem c8_aggregator_witness :
    totalScore ⟨1, 1 / 2, 1, 0, 1, 1 / 2⟩ ⟨1, 1 / 2, 0, 1, 1⟩ ⟨1, 0⟩
        = techTotal ⟨1, 1 / 2, 1, 0, 1, 1 / 2⟩ + fundTotal ⟨1, 1 / 2, 0, 1, 1⟩
          + remarksTotal ⟨1, 0⟩
      ∧ 0 ≤ percentageOf (totalScore ⟨1, 1 / 2, 1, 0, 1, 1 / 2⟩ ⟨1, 1 / 2, 0, 1, 1⟩ ⟨1, 0⟩)
      ∧ percentageOf (totalScore ⟨1, 1 / 2, 1, 0, 1, 1 / 2⟩ ⟨1, 1 / 2, 0, 1, 1⟩ ⟨1, 0⟩) ≤ 100
      ∧ (∀ p : ℚ,
          (ratingOf p = "⭐⭐⭐⭐⭐ Excellent" ↔ 75 ≤ p)
          ∧ (ratingOf p = "⭐⭐⭐⭐ Good" ↔ 60 ≤ p ∧ p < 75)
          ∧ (ratingOf p = "⭐⭐⭐ Average" ↔ 45 ≤ p ∧ p < 60)
          ∧ (ratingOf p = "⭐⭐ Below Average" ↔ 30 ≤ p ∧ p < 45)
          ∧ (ratingOf p = "⭐ Poor" ↔ p < 30)) :=
  c8_aggregator ⟨1, 1 / 2, 1, 0, 1, 1 / 2⟩ ⟨1, 1 / 2, 0, 1, 1⟩ ⟨1, 0⟩
    (by unfold validTech; norm_num) (by unfold validFund; norm_num)
    (by unfold validRemarks; norm_num)

/-- Counterexample to claim C4: the extractor coerces the `"None"`
placeholder (and an absent key alike) to the integer 0, not to null as
the claim states — `avCoerceSpec`, written from the spec's words, yields
null there, and so the two extractors disagree on this field. -/
theorem c4_counterexample :
    avCoerce AVField.novalue = 0 ∧ avCoerceSpec AVField.novalue = none ∧
      avCoerce AVField.absent = 0 ∧ avCoerceSpec AVField.absent = none :=
  ⟨rfl, rfl, rfl, rfl⟩

/-- Claim C4 as amended: the quarterly series extractor coerces a
missing or placeholder (`'None'`) or present-but-empty revenue,
net-income, or gross-profit field silently to zero — i.e. it equals the
spec's null-coercion with the null defaulted to 0; the zero then doubles
as the missing marker for the downstream nonzero guards. -/
theorem c4_amended (f : AVField) : avCoerce f = (avCoerceSpec f).getD 0 := by
  cases f <;> rfl

/-- Counterexample to claim C2: on the Yahoo growth calculator a zero
CURRENT value is not excluded — for the series `[0, 1, 1, 1, 100]` the
code computes `yoy[0] = -100` where the claim demands null (the claim
requires `series[i] ≠ 0`). -/
theorem c2_counterexample :
    (check_growth_acceleration [some 0, some 1, some 1, some 1, some 100]).2.getD 0 none
        = some (-100)
      ∧ ([some (0 : ℚ), some 1, some 1, some 1, some 100].getD 0 none = some 0) := by
  constructor
  · with_unfolding_all rfl
  · rfl

/-- Claim C2 as amended: the Yahoo calculator returns an empty series
for fewer than 5 values and otherwise EXACTLY four YoY slots (not
`min(n-4, 8)`); slot `i` carries `(series[i] - series[i+4]) / |series[i+4]| * 100`
whenever both entries are non-null and the four-quarters-prior entry is
nonzero (a zero current value is allowed on this path), and null when
either entry is null/out-of-range or the prior entry is zero — never 0
or infinite by default.  The Alpha Vantage calculator returns eight
slots when at least 12 quarters are available and four otherwise, and
additionally nulls a slot when the current value is zero. -/
theorem c2_amended :
    (∀ values : List (Option ℚ),
      ((check_growth_acceleration values).2.length = if values.length < 5 then 0 else 4)
      ∧ (∀ i, i < 4 → ¬values.length < 5 →
          (∀ c p, values.getD i none = some c → values.getD (i + 4) none = some p → p ≠ 0 →
            (check_growth_acceleration values).2.getD i none = some ((c - p) / |p| * 100))
          ∧ ((values.getD i none = none ∨ values.getD (i + 4) none = none ∨
                values.getD (i + 4) none = some 0) →
            (check_growth_acceleration values).2.getD i none = none)))
    ∧ (∀ data : List AVReport,
        ((avSalesGrowthList data).length = if 12 ≤ data.length then 8 else 4)
        ∧ (∀ cur prior : Int, avYoY cur prior = none ↔ prior = 0 ∨ cur = 0)
        ∧ (∀ cur prior : Int, prior ≠ 0 → cur ≠ 0 →
            avYoY cur prior = some (((cur : ℚ) - (prior : ℚ)) / |(prior : ℚ)| * 100))) := by
  constructor
  · intro values
    constructor
    · rw [cga_snd]
      split_ifs <;> simp
    · intro i hi hlen
      rw [cga_snd, if_neg hlen]
      constructor
      · intro c p hc hp hp0
        rw [map_range_getD _ 4 i none hi, hc, hp]
        simp only [yoyPoint]
        rw [if_pos hp0]
      · intro hnull
        rw [map_range_getD _ 4 i none hi]
        rcases hnull with hn | hn | hn <;> rw [hn] <;> unfold yoyPoint
        · rfl
        · cases values.getD i none <;> rfl
        · cases values.getD i none <;> simp
  · intro data
    refine ⟨?_, ?_, ?_⟩
    · unfold avSalesGrowthList
      split_ifs with h1 h2 <;> simp
    · intro cur prior
      unfold avYoY
      split_ifs with h
      · simp [h.1, h.2]
      · push_neg at h
        constructor
        · intro _
          rcases eq_or_ne prior 0 with hp | hp
          · exact Or.inl hp
          · exact Or.inr (h hp)
        · intro _
          rfl
    · intro cur prior hp hc
      unfold avYoY
      rw [if_pos ⟨hp, hc⟩]

/-- Witness for C2 (amended): on the 5-value series `[2, 1, 1, 1, 1]`
the first YoY slot evaluates to `(2 - 1)/|1|·100 = 100`. -/
theorem c2_amended_witness :
    (check_growth_acceleration [some 2, some 1, some 1, some 1, some 1]).2.getD 0 none
      = some (((2 : ℚ) - 1) / |(1 : ℚ)| * 100) :=
  ((c2_amended.1 [some 2, some 1, some 1, some 1, some 1]).2 0 (by norm_num)
    (by simp)).1 2 1 rfl rfl (by norm_num)

/-- Counterexample to claim C5: on the revenue series
`[120, 110, 100, 100, 100, 100, 100, 100]` the latest YoY is 20% (not
above 30%) and the previous YoY is 10%, yet the sales-growth sub-score
is 1.0 (0.5 acceleration + 0.5 for >15%) — refuting "equals 1.0 exactly
when the latest YoY growth exceeds 30%". -/
theorem c5_counterexample :
    yahooSalesScore
        [some 120, some 110, some 100, some 100, some 100, some 100, some 100, some 100] = 1
      ∧ (check_growth_acceleration
          ([some 120, some 110, some 100, some 100, some 100, some 100, some 100,
            some 100].take 8)).2.getD 0 none = some 20
      ∧ ¬(30 : ℚ) < 20 := by
  refine ⟨?_, ?_, by norm_num⟩
  · with_unfolding_all rfl
  · with_unfolding_all rfl

/-- Claim C5 as amended: on both provider paths the sales-growth
sub-score lies in {0, 0.5, 1.0}; a latest YoY above 30% scores 1.0
outright; OTHERWISE the score is the sum of 0.5 for acceleration over a
non-null previous YoY and 0.5 for a latest YoY above 15% — a sum that
can itself reach 1.0, so 1.0 is NOT exclusive to the >30% branch. -/
theorem c5_amended (rev : List (Option ℚ)) (data : List AVReport) :
    (yahooSalesScore rev = 0 ∨ yahooSalesScore rev = 1 / 2 ∨ yahooSalesScore rev = 1)
    ∧ (avSalesScore data = 0 ∨ avSalesScore data = 1 / 2 ∨ avSalesScore data = 1)
    ∧ (∀ l, (check_growth_acceleration (rev.take 8)).2.getD 0 none = some l → 30 < l →
        yahooSalesScore rev = 1)
    ∧ (∀ l, (check_growth_acceleration (rev.take 8)).2.getD 0 none = some l → ¬30 < l →
        yahooSalesScore rev
          = (if (check_growth_acceleration (rev.take 8)).1 then (1 : ℚ) / 2 else 0)
            + (if 15 < l then (1 : ℚ) / 2 else 0))
    ∧ (∀ l, (avSalesGrowthList data).getD 0 none = some l → 30 < l → avSalesScore data = 1)
    ∧ (∀ l, (avSalesGrowthList data).getD 0 none = some l → ¬30 < l →
        avSalesScore data
          = (if accelFrom (some l) ((avSalesGrowthList data).getD 1 none) then (1 : ℚ) / 2 else 0)
            + (if 15 < l then (1 : ℚ) / 2 else 0)) := by
  refine ⟨?_, ?_, ?_, ?_, ?_, ?_⟩
  · rcases h0 : (check_growth_acceleration (rev.take 8)).2.getD 0 none with _ | l
    · simp only [yahooSalesScore, h0]
      norm_num
    · simp only [yahooSalesScore, h0]
      split_ifs <;> norm_num
  · rcases h0 : (avSalesGrowthList data).getD 0 none with _ | l
    · simp only [avSalesScore, salesScoreFrom, h0]
      norm_num
    · rcases h1 : (avSalesGrowthList data).getD 1 none with _ | p <;>
        · simp only [avSalesScore, salesScoreFrom, h0, h1]
          split_ifs <;> norm_num
  · intro l h0 hl
    simp only [yahooSalesScore, h0]
    rw [if_pos hl]
  · intro l h0 hl
    simp only [yahooSalesScore, h0]
    rw [if_neg hl]
  · intro l h0 hl
    simp only [avSalesScore, salesScoreFrom, h0]
    rw [if_pos hl]
  · intro l h0 hl
    simp only [avSalesScore, salesScoreFrom, h0]
    rw [if_neg hl]
    rcases h1 : (avSalesGrowthList data).getD 1 none with _ | p
    · simp [accelFrom]
    · by_cases hp : p < l <;> simp [accelFrom, hp]

/-- Witness for C5 (amended): a latest YoY of 50% (above 30%) scores 1.0
on the Yahoo path. -/
theorem c5_amended_witness :
    yahooSalesScore
      [some 150, some 100, some 100, some 100, some 100, some 100, some 100, some 100] = 1 :=
  (c5_amended
      [some 150, some 100, some 100, some 100, some 100, some 100, some 100, some 100]
      []).2.2.1 50 (by with_unfolding_all rfl) (by norm_num)

/-- Counterexample to claim C6: in the Alpha Vantage path a quarter with
revenue 100 (nonzero) but gross profit 0 gets a NULL margin, refuting
"gross margin ... is null exactly when revenue is 0" for that path
(the margin would be 0%, not null, per the claim). -/
theorem c6_counterexample :
    (avGrossMargins [⟨.num 100, .num 0, .num 0⟩, ⟨.num 100, .num 0, .num 35⟩]).getD 0 none
        = none
      ∧ avCoerce ((([⟨.num 100, .num 0, .num 0⟩, ⟨.num 100, .num 0, .num 35⟩] :
          List AVReport).getD 0 default).totalRevenue) = 100
      ∧ (100 : Int) ≠ 0 := by
  refine ⟨by with_unfolding_all rfl, rfl, by norm_num⟩

/-- Claim C6 as amended: per quarter the margin is
`gross_profit/revenue×100`; on the Yahoo path it is null exactly when
revenue is 0, while on the Alpha Vantage path it is null exactly when
revenue is 0 OR gross profit is 0; the sub-score adds 0.5 for a latest
margin above the previous and 0.5 for a latest margin above 40%, so the
scenario gross_profit=50, revenue=100 (margin 50%) against a prior
margin of 35% scores 1.0 in both provider paths. -/
theorem c6_amended :
    (∀ (gp rev : List ℚ), rev.length = gp.length → ∀ i, i < rev.length →
      (yahooGrossMargins gp rev).getD i none
        = if rev.getD i 0 ≠ 0 then some (gp.getD i 0 / rev.getD i 0 * 100) else none)
    ∧ (∀ (data : List AVReport) (i : Nat), i < min 8 (avGrossProfits data).length →
        ((avGrossMargins data).getD i none = none
          ↔ (avRevenues data).getD i 0 = 0 ∨ (avGrossProfits data).getD i 0 = 0))
    ∧ yahooMarginScore ⟨some [100, 100], some [50, 35], none⟩ = 1
    ∧ avMarginScore [⟨.num 100, .num 0, .num 50⟩, ⟨.num 100, .num 0, .num 35⟩] = 1 := by
  refine ⟨?_, ?_, ?_, ?_⟩
  · intro gp rev hlen i hi
    unfold yahooGrossMargins
    rw [if_pos hlen, map_range_getD _ _ i none hi]
  · intro data i hi
    unfold avGrossMargins
    rw [map_range_getD _ _ i none hi]
    split_ifs with h
    · exact iff_of_false (by simp) (by rintro (hr | hg); exacts [h.1 hr, h.2 hg])
    · push_neg at h
      constructor
      · intro _
        rcases eq_or_ne ((avRevenues data).getD i 0) 0 with hr | hr
        · exact Or.inl hr
        · exact Or.inr (h hr)
      · intro _
        rfl
  · with_unfolding_all rfl
  · with_unfolding_all rfl

/-- Witness for C6 (amended), evaluating the Yahoo margin formula at a
concrete quarter with revenue 100 and gross profit 50. -/
theorem c6_amended_witness :
    (yahooGrossMargins [50] [100]).getD 0 none
      = if (100 : ℚ) ≠ 0 then some ((50 : ℚ) / 100 * 100) else none :=
  c6_amended.1 [50] [100] rfl 0 (by norm_num)

theorem yahooRevGrowth40_eq (inc : YahooIncome) (revs : List ℚ)
    (h : inc.totalRevenue = some revs) (h2 : 2 ≤ revs.length) (h1 : revs.getD 1 0 ≠ 0) :
    yahooRevGrowth40 inc = some ((revs.getD 0 0 - revs.getD 1 0) / |revs.getD 1 0| * 100) := by
  have hl : 2 ≤ (revs.take 2).length := by
    rw [List.length_take]
    omega
  have g0 : (revs.take 2).getD 0 0 = revs.getD 0 0 := getD_take revs 2 0 0 (by norm_num)
  have g1 : (revs.take 2).getD 1 0 = revs.getD 1 0 := getD_take revs 2 1 0 (by norm_num)
  simp only [yahooRevGrowth40, h, g0, g1]
  rw [if_pos ⟨hl, h1⟩]

theorem yahooProfitMargin40_eq (inc : YahooIncome) (revs gps : List ℚ)
    (hrev : inc.totalRevenue = some revs) (hgp : inc.grossProfit = some gps)
    (hg : 0 < gps.length) (hr : 0 < revs.length) (h0 : revs.getD 0 0 ≠ 0) :
    yahooProfitMargin40 inc = some (gps.getD 0 0 / revs.getD 0 0 * 100) := by
  simp only [yahooProfitMargin40, hrev, hgp]
  rw [if_pos ⟨hg, hr, h0⟩]

/-- Counterexample to claim C1: the Yahoo-path Rule-of-40 does not use
the quarter-4-prior YoY growth.  On the revenue row
`[100, 100, 100, 100, 50]` (5 quarters) with gross profits
`[10, 10, 10, 10, 10]`, the claim's formula gives
`(100-50)/|50|·100 + 10% = 110 ≥ 40`, so the claim demands score 1, but
the code compares `rev[0]` with `rev[1]` (growth 0%, sum 10 < 40) and
scores 0. -/
theorem c1_counterexample :
    yahooRuleOf40 ⟨some [100, 100, 100, 100, 50], some [10, 10, 10, 10, 10], none⟩ = 0
      ∧ ([(100 : ℚ), 100, 100, 100, 50].length = 5)
      ∧ 40 ≤ ([(100 : ℚ), 100, 100, 100, 50].getD 0 0 - [(100 : ℚ), 100, 100, 100, 50].getD 4 0)
              / |[(100 : ℚ), 100, 100, 100, 50].getD 4 0| * 100
            + [(10 : ℚ), 10, 10, 10, 10].getD 0 0 / [(100 : ℚ), 100, 100, 100, 50].getD 0 0 * 100 := by
  refine ⟨by with_unfolding_all rfl, rfl, ?_⟩
  simp only [List.getD]
  norm_num

/-- Claim C1 as amended: in the Alpha Vantage path, with at least 5
quarters and nonzero latest revenue, latest gross profit and
quarter-4-prior revenue, the Rule-of-40 score is 1 exactly when the
quarter-4-prior YoY revenue growth plus the latest gross margin reaches
40 (else 0); in the Yahoo path the revenue-growth term instead compares
the most recent quarter to the IMMEDIATELY PRIOR quarter (`rev[0]` vs
`rev[1]`), and the score is 1 exactly when that quarter-over-quarter
growth plus the latest gross margin reaches 40. -/
theorem c1_amended :
    (∀ data : List AVReport, 5 ≤ data.length →
      avCoerce ((data.getD 4 default).totalRevenue) ≠ 0 →
      (avRevenues data).getD 0 0 ≠ 0 → (avGrossProfits data).getD 0 0 ≠ 0 →
      (avRuleOf40 data = 1
        ↔ 40 ≤ (((avRevenues data).getD 0 0 : ℚ) - (avCoerce ((data.getD 4 default).totalRevenue) : ℚ))
                  / |(avCoerce ((data.getD 4 default).totalRevenue) : ℚ)| * 100
              + ((avGrossProfits data).getD 0 0 : ℚ) / ((avRevenues data).getD 0 0 : ℚ) * 100))
    ∧ (∀ (inc : YahooIncome) (revs gps : List ℚ),
        inc.totalRevenue = some revs → inc.grossProfit = some gps →
        2 ≤ revs.length → revs.getD 1 0 ≠ 0 → 0 < gps.length → revs.getD 0 0 ≠ 0 →
        (yahooRuleOf40 inc = 1
          ↔ 40 ≤ (revs.getD 0 0 - revs.getD 1 0) / |revs.getD 1 0| * 100
                + gps.getD 0 0 / revs.getD 0 0 * 100)) := by
  constructor
  · intro data h5 h4 hr hg
    unfold avRuleOf40
    rw [if_pos h5, if_pos h4, if_pos ⟨hr, hg⟩]
    split_ifs with h40
    · exact iff_of_true rfl h40
    · exact iff_of_false (by norm_num) h40
  · intro inc revs gps hrev hgp h2 h1 hg h0
    unfold yahooRuleOf40
    rw [yahooRevGrowth40_eq inc revs hrev h2 h1,
      yahooProfitMargin40_eq inc revs gps hrev hgp hg (by omega) h0]
    dsimp only
    split_ifs with h40
    · exact iff_of_true rfl h40
    · exact iff_of_false (by norm_num) h40

/-- Witness for C1 (amended): an Alpha Vantage series with 100% YoY
revenue growth and 50% gross margin scores 1. -/
theorem c1_amended_witness :
    avRuleOf40
      [⟨.num 200, .num 0, .num 100⟩, ⟨.num 1, .num 0, .num 1⟩, ⟨.num 1, .num 0, .num 1⟩,
        ⟨.num 1, .num 0, .num 1⟩, ⟨.num 100, .num 0, .num 1⟩] = 1 := by
  have h := c1_amended.1
    [⟨.num 200, .num 0, .num 100⟩, ⟨.num 1, .num 0, .num 1⟩, ⟨.num 1, .num 0, .num 1⟩,
      ⟨.num 1, .num 0, .num 1⟩, ⟨.num 100, .num 0, .num 1⟩]
    (by norm_num) (by decide) (by decide) (by decide)
  refine h.mpr ?_
  have e1 : (avRevenues
      [⟨.num 200, .num 0, .num 100⟩, ⟨.num 1, .num 0, .num 1⟩, ⟨.num 1, .num 0, .num 1⟩,
        ⟨.num 1, .num 0, .num 1⟩, ⟨.num 100, .num 0, .num 1⟩]).getD 0 0 = 200 := by decide
  have e2 : avCoerce ((([⟨.num 200, .num 0, .num 100⟩, ⟨.num 1, .num 0, .num 1⟩,
      ⟨.num 1, .num 0, .num 1⟩, ⟨.num 1, .num 0, .num 1⟩, ⟨.num 100, .num 0, .num 1⟩] :
        List AVReport).getD 4 default).totalRevenue) = 100 := by decide
  have e3 : (avGrossProfits
      [⟨.num 200, .num 0, .num 100⟩, ⟨.num 1, .num 0, .num 1⟩, ⟨.num 1, .num 0, .num 1⟩,
        ⟨.num 1, .num 0, .num 1⟩, ⟨.num 100, .num 0, .num 1⟩]).getD 0 0 = 100 := by decide
  rw [e1, e2, e3]
  norm_num

/-- Counterexample to claim C7: the Alpha Vantage flow converts a
reported trailing ROE ratio of 1.5 (i.e. 150%) WITHOUT multiplying by
100 (it only multiplies when the ratio is below 1), so it scores 0 even
though the claim's `1.5 × 100 = 150 ≥ 15` demands score 1. -/
theorem c7_counterexample :
    (avROEScore (some (3 / 2))).1 = 0 ∧ (15 : ℚ) ≤ 3 / 2 * 100 := by
  constructor
  · with_unfolding_all rfl
  · norm_num

/-- Claim C7 as amended: the Yahoo scorer converts a reported trailing
ROE ratio with an unconditional ×100 and scores 1 exactly when the
percentage reaches 15, deriving `net_income × 4 / equity × 100` from the
statements only when no ratio is reported; the Alpha Vantage flow,
however, multiplies the reported ratio by 100 ONLY when it is below 1,
taking values ≥ 1 as already-percent figures. -/
theorem c7_amended :
    (∀ (r : ℚ) (ni eq : Option (List (Option ℚ))),
        yahooROE (some r) ni eq = if 15 ≤ r * 100 then 1 else 0)
    ∧ (∀ r : ℚ, (avROEScore (some r)).1
        = if 15 ≤ (if r < 1 then r * 100 else r) then 1 else 0)
    ∧ (∀ (nis eqs : List (Option ℚ)) (a b : ℚ),
        nis.getD 0 none = some a → eqs.getD 0 none = some b → b ≠ 0 →
        yahooROE none (some nis) (some eqs) = if 15 ≤ a * 4 / b * 100 then 1 else 0) := by
  refine ⟨fun r ni eq => rfl, fun r => rfl, ?_⟩
  intro nis eqs a b ha hb hb0
  have hnis : 0 < nis.length := by
    cases nis
    · simp [List.getD] at ha
    · simp
  have heqs : 0 < eqs.length := by
    cases eqs
    · simp [List.getD] at hb
    · simp
  have hn : 0 < min (nis.take 4).length (eqs.take 4).length := by
    simp only [List.length_take, lt_min_iff]
    omega
  have hne : yahooROEQuarters nis eqs ≠ [] := by
    unfold yahooROEQuarters
    intro hcontra
    have hlen := congrArg List.length hcontra
    simp only [List.length_map, List.length_range, List.length_nil] at hlen
    omega
  have h0 : (yahooROEQuarters nis eqs).getD 0 none = some (a * 4 / b * 100) := by
    unfold yahooROEQuarters
    rw [map_range_getD _ _ 0 none hn]
    simp only [getD_take nis 4 0 none (by norm_num), getD_take eqs 4 0 none (by norm_num),
      ha, hb]
    rw [if_pos hb0]
  simp only [yahooROE]
  rw [if_neg hne, h0]

/-- Witness for C7 (amended): a single derived quarter with net income 5
and equity 100 gives annualized ROE 20% and hence score 1. -/
theorem c7_amended_witness :
    yahooROE none (some [some 5]) (some [some 100])
      = if (15 : ℚ) ≤ 5 * 4 / 100 * 100 then 1 else 0 :=
  c7_amended.2.2 [some 5] [some 100] 5 100 rfl rfl (by norm_num)

set_option maxRecDepth 40000 in
/-- Counterexample to claim C3: the 30-period average volume INCLUDES
the current bar (`rolling(window=30).mean()` ends at the current row).
On `c3df` the detector flags bar 30 (its volume 100 exceeds the
including-itself average 13), yet the claim's excluding-the-current-bar
average over bars 0..29 is 343, ABOVE the bar's volume — so under the
claim's condition bar 30 is not a key bar at all. -/
theorem c3_counterexample :
    (detect_key_bars c3df).2 = some 30
      ∧ (c3df.getD 30 default).volume
          < (((List.range 30).map (fun k => (c3df.getD k default).volume)).sum) / 30 := by
  constructor
  · with_unfolding_all rfl
  · with_unfolding_all decide

/-- Claim C3 as amended: for a frame of at least 30 bars, the detector
selects index `i` exactly when `i` lies in the last 10 bars, bar `i`
satisfies all three key-bar conditions — volume above the 30-period
trailing average ENDING AT AND INCLUDING the bar itself (which also
requires at least 29 predecessors), |close−open|/open×100 above 1.5, and
a high above the maximum of the 5 strictly preceding highs — and no
later bar satisfies them. -/
theorem c3_amended (df : List Bar) (i : Nat) (h30 : 30 ≤ df.length) :
    (detect_key_bars df).2 = some i
      ↔ df.length - 10 ≤ i ∧ i < df.length ∧ isKeyBarP df i
        ∧ ∀ j, i < j → j < df.length → ¬isKeyBarP df j := by
  unfold detect_key_bars
  rw [if_neg (by omega : ¬df.length < 30)]
  dsimp only
  rw [filter_range'_getLast?_eq_some]
  have hlen : df.length - 10 + 10 = df.length := by omega
  rw [hlen]
  constructor
  · rintro ⟨h1, h2, h3, h4⟩
    refine ⟨h1, h2, (isKeyBar_iff df i).mp h3, fun j hj1 hj2 hP => ?_⟩
    have hkb := (isKeyBar_iff df j).mpr hP
    rw [h4 j hj1 hj2] at hkb
    cases hkb
  · rintro ⟨h1, h2, h3, h4⟩
    refine ⟨h1, h2, (isKeyBar_iff df i).mpr h3, fun j hj1 hj2 => ?_⟩
    cases hkb : isKeyBar df j
    · rfl
    · exact absurd ((isKeyBar_iff df j).mp hkb) (h4 j hj1 hj2)

/-- Witness for C3 (amended): on the concrete frame `c3df` the
characterization certifies that bar 30 is the selected key bar. -/
theorem c3_amended_witness :
    (31 : Nat) - 10 ≤ 30 ∧ 30 < 31 ∧
      ((detect_key_bars c3df).2 = some 30
        ↔ (c3df.length - 10 ≤ 30 ∧ 30 < c3df.length ∧ isKeyBarP c3df 30
            ∧ ∀ j, 30 < j → j < c3df.length → ¬isKeyBarP c3df j)) :=
  ⟨by norm_num, by norm_num, c3_amended c3df 30 (by with_unfolding_all decide)⟩

end StockCheck
